import Mathlib

/-!
Verification development for the lumen doubt bot (src/bot/main.py).

Python strings are modelled as lists of characters (`Str`), since Python
string operations act on sequences of code points.  The external
collaborators (Discord and Firestore) are modelled by passing their
outcomes as explicit parameters (`ThreadResult`, `StoreResult`,
`DeleteResult`, a `dm_ok` flag) and by recording the side effects a
handler performs as an ordered trace of `Effect`s.
-/

set_option maxRecDepth 10000

namespace Lumen

/-- Python strings, modelled as sequences of characters. -/
abbrev Str := List Char

/-- ASCII lowercasing of one character, as `str.lower` does on ASCII input. -/
def lowerChar (c : Char) : Char :=
  if 65 ≤ c.toNat ∧ c.toNat ≤ 90 then Char.ofNat (c.toNat + 32) else c

/-- Model of Python `str.lower`. -/
def lower (cs : Str) : Str := cs.map lowerChar

/-- Model of Python `str.strip`: drop whitespace from both ends. -/
def trim (cs : Str) : Str :=
  ((cs.dropWhile Char.isWhitespace).reverse.dropWhile Char.isWhitespace).reverse

/-- Fuel-indexed worker for `replaceAll`.  Each step either consumes the
pattern (when it matches at the current position) or one character, so
fuel equal to the length of the scanned text suffices; the fuel only
makes the structural recursion explicit. -/
def replaceAllAux (pat sub : Str) : Nat → Str → Str
  | _, [] => []
  | 0, cs => cs
  | fuel + 1, c :: cs =>
    if pat.isPrefixOf (c :: cs) then
      sub ++ replaceAllAux pat sub fuel ((c :: cs).drop pat.length)
    else
      c :: replaceAllAux pat sub fuel cs

/-- Model of Python `str.replace old new`: replace every non-overlapping
occurrence of `pat`, scanning left to right.  The mention tokens this is
used on are never empty; for an empty pattern the text is returned
unchanged. -/
def replaceAll (cs pat sub : Str) : Str :=
  if pat.isEmpty then cs else replaceAllAux pat sub cs.length cs

/-- A mention as the chat client resolves it (an element of
`message.mentions`): the user id together with the raw mention token
(`mention.mention` in the source, for example `<@123>`). -/
structure Mention where
  id : Nat
  mention : Str
deriving DecidableEq

/-- An inbound chat message, with the fields `on_message` reads:
`message.content`, `message.id`, `message.author` (id, name, mention
token), `message.channel.id` and the resolved `message.mentions`. -/
structure Message where
  content : Str
  id : Nat
  author_id : Nat
  author_name : Str
  author_mention : Str
  channel_id : Nat
  mentions : List Mention
deriving DecidableEq

/-- Line 76 of main.py: `message.content.lower().startswith("doubt")`. -/
def is_doubt (m : Message) : Bool :=
  "doubt".toList.isPrefixOf (lower m.content)

/-- Substring containment of the keyword, the policy the spec calls
keyword-anywhere detection (the source does not implement it). -/
def contains_keyword (cs : Str) : Bool :=
  (lower cs).tails.any (fun t => "doubt".toList.isPrefixOf t)

/-- Line 80: `message.content[len("doubt"):].strip()`. -/
def content_after_keyword (m : Message) : Str :=
  trim (m.content.drop 5)

/-- Lines 95-98: starting from the text after the keyword, remove each
mention token in turn and strip whitespace after each removal. -/
def doubt_description (m : Message) : Str :=
  m.mentions.foldl (fun d mn => trim (replaceAll d mn.mention [])) (content_after_keyword m)

/-- Line 101: `min_doubt_description_length = 5`. -/
def min_doubt_description_length : Nat := 5

/-- Rejection reasons of the message classifier (spec section 4.1). -/
inductive RejectionReason
  | noMentorTagged
  | descriptionTooShort
deriving DecidableEq

/-- Result of the message classifier. -/
inductive ClassifyResult
  | rejected (r : RejectionReason)
  | accepted (description : Str)
deriving DecidableEq

/-- The classifier implemented by the validation steps of `on_message`
(lines 82-109): the mention check runs first, then the minimum-length
check on the cleaned description. -/
def classify (m : Message) : ClassifyResult :=
  if m.mentions.isEmpty then
    ClassifyResult.rejected RejectionReason.noMentorTagged
  else if (doubt_description m).length < min_doubt_description_length then
    ClassifyResult.rejected RejectionReason.descriptionTooShort
  else
    ClassifyResult.accepted (doubt_description m)

/-- The record written to the `queries` collection (lines 128-141).
The two `SERVER_TIMESTAMP` sentinels (`created_at`, `last_activity_at`)
are assigned by the store server, not the caller, and are omitted. -/
structure QueryRecord where
  thread_id : Nat
  message_id : Nat
  author_id : Nat
  author_name : Str
  query_content : Str
  doubt_description : Str
  mentioned_mentors_ids : List Nat
  status : String
  mentor_pinged : Bool
  channel_id : Nat
deriving DecidableEq

/-- The document `on_message` builds for a freshly created thread. -/
def mk_query_record (m : Message) (tid : Nat) : QueryRecord :=
  { thread_id := tid
    message_id := m.id
    author_id := m.author_id
    author_name := m.author_name
    query_content := m.content
    doubt_description := doubt_description m
    mentioned_mentors_ids := m.mentions.map Mention.id
    status := "open"
    mentor_pinged := false
    channel_id := m.channel_id }

/-- One observable side effect of a handler, in the order performed. -/
inductive Effect
  | create_thread (name : Str)
  | store_write (doc_id : String) (rec : QueryRecord)
  | channel_send (text : Str)
  | dm_send (text : Str)
  | try_delete_message
  | log (text : Str)
deriving DecidableEq

/-- Outcome of the external `message.create_thread` call (lines 117,
155, 158): success with the new thread id, an HTTP failure, or any other
exception. -/
inductive ThreadResult
  | ok (id : Nat)
  | http_error
  | other_error
deriving DecidableEq

/-- Outcome of the external Firestore `set` call (lines 126-145). -/
inductive StoreResult
  | ok
  | error
deriving DecidableEq

/-- Discord mention string of a thread, `result_thread.mention`. -/
def thread_mention (tid : Nat) : Str :=
  "<#".toList ++ (toString tid).toList ++ ">".toList

/-- Rejection text of lines 84-87, addressed to the requester. -/
def no_mentor_msg (m : Message) : Str :=
  m.author_mention ++ ", to create a doubt, you must mention at least one mentor. The correct format is: `doubt @mentor1 [optional @mentor2] Your doubt description here.`".toList

/-- Log line of line 88. -/
def reject_no_mention_log (m : Message) : Str :=
  "Rejected doubt query from ".toList ++ m.author_name ++ " (no mention): \x27".toList ++ m.content ++ "\x27".toList

/-- Rejection text of lines 103-107, addressed to the requester. -/
def too_short_msg (m : Message) : Str :=
  m.author_mention ++ ", your doubt description seems too short or incomplete after mentioning. Please provide more details, for example: `doubt @mentor How do I fix this error in Python?`".toList

/-- Log line of line 108. -/
def reject_short_log (m : Message) : Str :=
  "Rejected short doubt description from ".toList ++ m.author_name ++ ": \x27".toList ++ m.content ++ "\x27".toList

/-- Thread name of line 115. -/
def thread_name (m : Message) : Str :=
  "Doubt from ".toList ++ m.author_name ++ " - ".toList ++ trim ((doubt_description m).take 25)

/-- Log line of line 118. -/
def created_thread_log (m : Message) (tid : Nat) : Str :=
  "Created new thread: \x27".toList ++ thread_name m ++ "\x27 [ID: ".toList ++ (toString tid).toList ++ "]".toList

/-- Log line of line 143. -/
def stored_log (tid : Nat) : Str :=
  "Stored query ".toList ++ (toString tid).toList ++ " in Firestore.".toList

/-- Log line of line 145 (the exception text is elided). -/
def store_fail_log (tid : Nat) : Str :=
  "Failed to store query in Firestore for thread ".toList ++ (toString tid).toList ++ ".".toList

/-- Confirmation text of lines 148-151, naming the new thread. -/
def confirm_msg (m : Message) (tid : Nat) : Str :=
  m.author_mention ++ ", your doubt has been submitted! Please discuss further in the new thread: ".toList ++ thread_mention tid ++ ". Waiting for mentors to reply.".toList

/-- Log line of line 153. -/
def replied_log (m : Message) : Str :=
  "Bot replied to ".toList ++ m.author_name ++ " about thread creation for doubt.".toList

/-- Log line of line 156 (the exception text is elided). -/
def thread_fail_log (m : Message) : Str :=
  "Failed to create thread for \x27".toList ++ m.content ++ "\x27.".toList

/-- Apology of line 157. -/
def thread_fail_msg (m : Message) : Str :=
  "Sorry, ".toList ++ m.author_mention ++ ", I couldn\x27t create a thread for your doubt. Please check my permissions.".toList

/-- Log line of line 159 (the exception text is elided). -/
def unexpected_log (m : Message) : Str :=
  "An unexpected error occurred during doubt processing for \x27".toList ++ m.content ++ "\x27.".toList

/-- Apology of line 160. -/
def unexpected_msg (m : Message) : Str :=
  "An unexpected error occurred while processing your doubt, ".toList ++ m.author_mention ++ ".".toList

/-- The doubt branch of the `on_message` handler (lines 74-160), for a
message not authored by the bot itself.  The outcomes of the two
external calls are passed in: `tr` for thread creation, `sr` for the
store write.  The returned list is the trace of effects, in the order
the handler performs them; a message whose text does not start with the
keyword produces no effect in this branch. -/
def on_message (m : Message) (tr : ThreadResult) (sr : StoreResult) : List Effect :=
  if is_doubt m then
    if m.mentions.isEmpty then
      [Effect.channel_send (no_mentor_msg m), Effect.log (reject_no_mention_log m)]
    else if (doubt_description m).length < min_doubt_description_length then
      [Effect.channel_send (too_short_msg m), Effect.log (reject_short_log m)]
    else
      match tr with
      | ThreadResult.ok tid =>
          [Effect.create_thread (thread_name m), Effect.log (created_thread_log m tid)] ++
          (match sr with
           | StoreResult.ok =>
               [Effect.store_write (toString tid) (mk_query_record m tid),
                Effect.log (stored_log tid)]
           | StoreResult.error => [Effect.log (store_fail_log tid)]) ++
          [Effect.channel_send (confirm_msg m tid), Effect.log (replied_log m)]
      | ThreadResult.http_error =>
          [Effect.log (thread_fail_log m), Effect.channel_send (thread_fail_msg m)]
      | ThreadResult.other_error =>
          [Effect.log (unexpected_log m), Effect.channel_send (unexpected_msg m)]
  else []

/-- A stored query document as the resolve and list commands see it
(the fields those commands read or update).  Server timestamps are
modelled as natural numbers. -/
structure QueryDoc where
  thread_id : Nat
  author_name : Str
  doubt_description : Str
  status : String
  created_at : Nat
  last_activity_at : Nat
  resolved_by_id : Option Nat
  resolved_by_name : Option Str
  resolved_at : Option Nat
deriving DecidableEq

/-- The `queries` collection, keyed by the stringified thread id
(modelled as the numeric id). -/
def Store := List (Nat × QueryDoc)

/-- Firestore `get` by document id. -/
def Store.get : Store → Nat → Option QueryDoc
  | [], _ => none
  | (k, d) :: rest, tid => if k = tid then some d else Store.get rest tid

/-- Firestore `update` of the document with the given id. -/
def Store.update (s : Store) (tid : Nat) (f : QueryDoc → QueryDoc) : Store :=
  s.map (fun kv => if kv.1 = tid then (kv.1, f kv.2) else kv)

/-- Notice of line 183. -/
def wrong_context_msg : Str :=
  "This command can only be used inside a doubt thread.".toList

/-- Notice of line 194. -/
def not_found_msg : Str :=
  "This thread does not correspond to an active doubt in the database.".toList

/-- Log line of line 195. -/
def resolve_not_found_log (tid : Nat) : Str :=
  "Resolve command used in thread ".toList ++ (toString tid).toList ++ ", but no corresponding query found.".toList

/-- Notice of line 200, produced when the doubt is already resolved. -/
def already_resolved_msg : Str :=
  "This doubt is already marked as resolved.".toList

/-- Confirmation of lines 214-217. -/
def resolved_msg (actor_mention : Str) : Str :=
  "Doubt in this thread has been marked as **RESOLVED** by ".toList ++ actor_mention ++ ". Thank you for using lumen!".toList

/-- Log line of line 218. -/
def resolved_log (tid : Nat) (actor_name : Str) : Str :=
  "Doubt ".toList ++ (toString tid).toList ++ " resolved by ".toList ++ actor_name ++ ".".toList

/-- The `!resolve` command handler (lines 175-222).  `is_thread` is the
`isinstance(ctx.channel, discord.Thread)` test; `now` stands for the
server timestamp the store would assign.  Returns the store after the
call together with the trace of effects. -/
def resolve_doubt (is_thread : Bool) (thread_id actor_id : Nat)
    (actor_name actor_mention : Str) (now : Nat) (store : Store) :
    Store × List Effect :=
  if !is_thread then
    (store, [Effect.channel_send wrong_context_msg])
  else
    match Store.get store thread_id with
    | none =>
        (store, [Effect.channel_send not_found_msg, Effect.log (resolve_not_found_log thread_id)])
    | some q =>
        if q.status = "resolved" then
          (store, [Effect.channel_send already_resolved_msg])
        else
          (Store.update store thread_id (fun d =>
              { d with status := "resolved"
                       resolved_by_id := some actor_id
                       resolved_by_name := some actor_name
                       resolved_at := some now
                       last_activity_at := now }),
           [Effect.channel_send (resolved_msg actor_mention), Effect.log (resolved_log thread_id actor_name)])

/-- Outcome of the external `ctx.message.delete()` call. -/
inductive DeleteResult
  | ok
  | forbidden
  | http_error
deriving DecidableEq

/-- Log line of line 240. -/
def delete_forbidden_log : Str :=
  "Bot lacks manage_messages permission to delete command message.".toList

/-- Log line of line 244 (the exception text is elided). -/
def delete_fail_log : Str :=
  "Failed to delete command message.".toList

/-- Lines 236-245: the delete attempt that opens `list_open_doubts`,
with both failure modes caught and logged. -/
def delete_phase (dr : DeleteResult) : List Effect :=
  Effect.try_delete_message ::
    (match dr with
     | DeleteResult.ok => []
     | DeleteResult.forbidden => [Effect.log delete_forbidden_log]
     | DeleteResult.http_error => [Effect.log delete_fail_log])

/-- Line 251: the documents whose `status` field is `open`. -/
def open_queries (store : Store) : List QueryDoc :=
  (store.filter (fun kv => kv.2.status == "open")).map (fun kv => kv.2)

/-- Notice of line 254. -/
def no_open_msg : Str :=
  "There are no open doubts at the moment. Great job!".toList

/-- Log line of line 255. -/
def no_open_log : Str :=
  "No open queries found.".toList

/-- Header of line 258. -/
def report_header : Str :=
  "**Currently Open Doubts:**\n\n".toList

/-- One listing entry (lines 280-285).  The thread link is rendered as
the thread mention; the timestamp formatting of line 278 is abbreviated
to the numeric value. -/
def render_entry (d : QueryDoc) : Str :=
  "- **Author:** ".toList ++ d.author_name ++
  "\n  **Doubt:** ".toList ++ d.doubt_description ++
  "\n  **Created:** ".toList ++ (toString d.created_at).toList ++ " UTC".toList ++
  "\n  **Thread:** ".toList ++ thread_mention d.thread_id ++ "\n\n".toList

/-- The accumulated report text (lines 258-285). -/
def response_message (opens : List QueryDoc) : Str :=
  opens.foldl (fun acc d => acc ++ render_entry d) report_header

/-- Fuel-indexed worker for `chunk_string`; fuel equal to the length of
the text suffices since every step consumes at least one character. -/
def chunks_aux : Nat → Str → List Str
  | _, [] => []
  | 0, _ => []
  | fuel + 1, cs => cs.take 1900 :: chunks_aux fuel (cs.drop 1900)

/-- Line 288: split the report into chunks of at most 1900 characters. -/
def chunk_string (cs : Str) : List Str :=
  chunks_aux cs.length cs

/-- Log line of line 292. -/
def listed_log : Str :=
  "Listed open queries privately.".toList

/-- Fallback notice of line 297, sent publicly when the direct message
is rejected. -/
def dm_fallback_msg : Str :=
  "I tried to send you the list of doubts in your direct messages (DM), but I couldn\x27t. Please check your privacy settings to allow DMs from server members.".toList

/-- Log line of line 298. -/
def dm_fail_log : Str :=
  "Bot lacks permissions to DM list of doubts.".toList

/-- Lines 248-298: the report half of `list_open_doubts`.  `dm_ok`
models whether the direct message to the invoking actor is accepted;
when it is rejected the handler falls back to the single public notice
of line 297. -/
def report_effects (store : Store) (dm_ok : Bool) : List Effect :=
  if (open_queries store).isEmpty then
    if dm_ok then
      [Effect.dm_send no_open_msg, Effect.log no_open_log]
    else
      [Effect.channel_send dm_fallback_msg, Effect.log dm_fail_log]
  else
    if dm_ok then
      (chunk_string (response_message (open_queries store))).map Effect.dm_send ++
        [Effect.log listed_log]
    else
      [Effect.channel_send dm_fallback_msg, Effect.log dm_fail_log]

/-- The `!list` command body (lines 225-301), reached when the invoker
holds the required permission: delete attempt first, then the report.
The store is returned unchanged, as the handler never writes to it. -/
def list_open_doubts (store : Store) (dr : DeleteResult) (dm_ok : Bool) :
    Store × List Effect :=
  (store, delete_phase dr ++ report_effects store dm_ok)

/-- Log line of line 310. -/
def error_delete_warn_log : Str :=
  "Could not delete error-triggering command message.".toList

/-- Notice of line 314. -/
def no_perm_msg : Str :=
  "You don\x27t have the necessary permissions (Manage Server) to use this command.".toList

/-- Log line of line 315. -/
def no_perm_warn_log : Str :=
  "User tried to use !list without permissions.".toList

/-- The `!list` error handler (lines 303-318) in its reachable
`MissingPermissions` case: the delete attempt still runs first, with
both failure modes caught under a single log line, then the public
permission notice. -/
def list_error (dr : DeleteResult) : List Effect :=
  (Effect.try_delete_message ::
    (match dr with
     | DeleteResult.ok => []
     | _ => [Effect.log error_delete_warn_log])) ++
  [Effect.channel_send no_perm_msg, Effect.log no_perm_warn_log]

/-- Dispatch of the `!list` command: the `has_permissions` decorator of
line 226 routes the invocation to the command body or, when the invoker
lacks the capability, to the error handler. -/
def list_command (has_perm : Bool) (dr : DeleteResult) (dm_ok : Bool) (store : Store) :
    Store × List Effect :=
  if has_perm then list_open_doubts store dr dm_ok
  else (store, list_error dr)

/-- Boolean test for a private (direct) message effect. -/
def is_dm_send : Effect → Bool
  | Effect.dm_send _ => true
  | _ => false

/-- A mentor mention, used as concrete input. -/
def mentor_a : Mention := { id := 101, mention := "<@101>".toList }

/-- A well-formed doubt message: keyword at the start, one mentor
mention, description long enough. -/
def m_ok : Message :=
  { content := "doubt <@101> please help with build failure".toList
    id := 21, author_id := 5, author_name := "bob".toList
    author_mention := "<@5>".toList, channel_id := 9, mentions := [mentor_a] }

/-- A doubt message whose keyword appears only in the interior. -/
def m_interior : Message :=
  { content := "I have a doubt <@101> please help".toList
    id := 31, author_id := 2, author_name := "dan".toList
    author_mention := "<@2>".toList, channel_id := 8, mentions := [mentor_a] }

/-- A doubt message with no mention and a short description. -/
def m_no_mention_short : Message :=
  { content := "doubt hi".toList
    id := 11, author_id := 1, author_name := "ann".toList
    author_mention := "<@1>".toList, channel_id := 7, mentions := [] }

/-- A doubt message with no mention and a long description. -/
def m_no_mention_long : Message :=
  { content := "doubt how do I fix this error in my build".toList
    id := 22, author_id := 5, author_name := "bob".toList
    author_mention := "<@5>".toList, channel_id := 9, mentions := [] }

/-- A doubt message with a mention but a description of length 2. -/
def m_short_with_mention : Message :=
  { content := "doubt <@101> ok".toList
    id := 23, author_id := 5, author_name := "bob".toList
    author_mention := "<@5>".toList, channel_id := 9, mentions := [mentor_a] }

/-- A stored document already resolved. -/
def doc_resolved : QueryDoc :=
  { thread_id := 5, author_name := "ann".toList
    doubt_description := "please help".toList, status := "resolved"
    created_at := 10, last_activity_at := 20
    resolved_by_id := some 3, resolved_by_name := some "mentor".toList
    resolved_at := some 20 }

/-- A stored document still open. -/
def doc_open : QueryDoc :=
  { thread_id := 6, author_name := "cara".toList
    doubt_description := "how to test".toList, status := "open"
    created_at := 11, last_activity_at := 11
    resolved_by_id := none, resolved_by_name := none, resolved_at := none }

/-- A store holding one resolved query. -/
def store_resolved : Store := [(5, doc_resolved)]

/-- A store holding one open query. -/
def store_one_open : Store := [(6, doc_open)]

/-- The empty store. -/
def store_empty : Store := []

/-- Helper: a nonempty list has `isEmpty = false`. -/
theorem isEmpty_false_of_ne_nil {α : Type} {l : List α} (h : l ≠ []) :
    l.isEmpty = false := by
  cases l with
  | nil => exact absurd rfl h
  | cons a t => rfl

/-- Claim C1, counterexample: a message that contains the keyword only
in its interior is not treated as a doubt request — the handler produces
no effect at all on it, so classification never runs. -/
theorem keyword_anywhere_not_processed :
    contains_keyword m_interior.content = true ∧
    m_interior.mentions ≠ [] ∧
    on_message m_interior (ThreadResult.ok 7) StoreResult.ok = [] := by
  refine ⟨by decide, by decide, by decide⟩

/-- Claim C1, amended: every inbound message whose text starts with the
case-insensitive keyword is treated as a doubt request, and the handler
always answers it in the originating channel — such a message is never
silently ignored. -/
theorem doubt_keyword_start_messages_answered (m : Message) (tr : ThreadResult)
    (sr : StoreResult) (hd : is_doubt m = true) :
    on_message m tr sr ≠ [] ∧ ∃ t, Effect.channel_send t ∈ on_message m tr sr := by
  by_cases hme : m.mentions.isEmpty = true
  · exact ⟨by simp [on_message, hd, hme],
      ⟨no_mentor_msg m, by simp [on_message, hd, hme]⟩⟩
  · have hme2 : m.mentions.isEmpty = false := by
      cases h : m.mentions.isEmpty with
      | true => exact absurd h hme
      | false => rfl
    by_cases hl : (doubt_description m).length < min_doubt_description_length
    · exact ⟨by simp [on_message, hd, hme2, hl],
        ⟨too_short_msg m, by simp [on_message, hd, hme2, hl]⟩⟩
    · cases tr with
      | ok tid =>
        cases sr with
        | ok => exact ⟨by simp [on_message, hd, hme2, hl],
            ⟨confirm_msg m tid, by simp [on_message, hd, hme2, hl]⟩⟩
        | error => exact ⟨by simp [on_message, hd, hme2, hl],
            ⟨confirm_msg m tid, by simp [on_message, hd, hme2, hl]⟩⟩
      | http_error => exact ⟨by simp [on_message, hd, hme2, hl],
          ⟨thread_fail_msg m, by simp [on_message, hd, hme2, hl]⟩⟩
      | other_error => exact ⟨by simp [on_message, hd, hme2, hl],
          ⟨unexpected_msg m, by simp [on_message, hd, hme2, hl]⟩⟩

/-- Witness for the amended claim C1 at a concrete prefixed message. -/
theorem doubt_keyword_start_messages_answered_witness :
    on_message m_ok (ThreadResult.ok 7) StoreResult.ok ≠ [] ∧
    ∃ t, Effect.channel_send t ∈ on_message m_ok (ThreadResult.ok 7) StoreResult.ok :=
  doubt_keyword_start_messages_answered m_ok (ThreadResult.ok 7) StoreResult.ok (by decide)

/-- Claim C2: resolving a query whose status is already resolved
produces the already-resolved notice and returns the store unchanged —
no write happens, so `resolved_at` and every other field keep their
values. -/
theorem resolve_already_resolved_is_noop (store : Store) (tid aid now : Nat)
    (an am : Str) (q : QueryDoc)
    (hget : Store.get store tid = some q) (hres : q.status = "resolved") :
    resolve_doubt true tid aid an am now store =
      (store, [Effect.channel_send already_resolved_msg]) := by
  simp [resolve_doubt, hget, hres]

/-- Witness for claim C2 on a one-document store. -/
theorem resolve_already_resolved_is_noop_witness :
    resolve_doubt true 5 9 "bob".toList "<@9>".toList 99 store_resolved =
      (store_resolved, [Effect.channel_send already_resolved_msg]) :=
  resolve_already_resolved_is_noop store_resolved 5 9 99 "bob".toList "<@9>".toList
    doc_resolved (by decide) rfl

/-- Claim C3: for an accepted submission, thread creation comes strictly
before the store write, the store write strictly before the confirmation
message, and the store document key is the stringified thread id. -/
theorem submit_thread_before_store_before_confirm (m : Message) (tid : Nat)
    (hd : is_doubt m = true) (hm : m.mentions ≠ [])
    (hl : ¬ (doubt_description m).length < min_doubt_description_length) :
    ∃ i j k : Nat, i < j ∧ j < k ∧
      (on_message m (ThreadResult.ok tid) StoreResult.ok)[i]? =
        some (Effect.create_thread (thread_name m)) ∧
      (on_message m (ThreadResult.ok tid) StoreResult.ok)[j]? =
        some (Effect.store_write (toString tid) (mk_query_record m tid)) ∧
      (on_message m (ThreadResult.ok tid) StoreResult.ok)[k]? =
        some (Effect.channel_send (confirm_msg m tid)) := by
  have hme := isEmpty_false_of_ne_nil hm
  have htrace : on_message m (ThreadResult.ok tid) StoreResult.ok =
      [Effect.create_thread (thread_name m), Effect.log (created_thread_log m tid),
       Effect.store_write (toString tid) (mk_query_record m tid), Effect.log (stored_log tid),
       Effect.channel_send (confirm_msg m tid), Effect.log (replied_log m)] := by
    simp [on_message, hd, hme, hl]
  exact ⟨0, 2, 4, by omega, by omega,
    by rw [htrace]; rfl, by rw [htrace]; rfl, by rw [htrace]; rfl⟩

/-- Witness for claim C3 at a concrete accepted submission. -/
theorem submit_thread_before_store_before_confirm_witness :
    ∃ i j k : Nat, i < j ∧ j < k ∧
      (on_message m_ok (ThreadResult.ok 7) StoreResult.ok)[i]? =
        some (Effect.create_thread (thread_name m_ok)) ∧
      (on_message m_ok (ThreadResult.ok 7) StoreResult.ok)[j]? =
        some (Effect.store_write (toString 7) (mk_query_record m_ok 7)) ∧
      (on_message m_ok (ThreadResult.ok 7) StoreResult.ok)[k]? =
        some (Effect.channel_send (confirm_msg m_ok 7)) :=
  submit_thread_before_store_before_confirm m_ok 7 (by decide) (by decide) (by decide)

/-- Claim C4: a doubt message with no mention is classified as
`NoMentorTagged`; the handler sends only the rejection notice, addressed
to the requester, and neither creates a thread nor writes to the store. -/
theorem no_mention_rejected_no_side_effects (m : Message) (tr : ThreadResult)
    (sr : StoreResult) (hd : is_doubt m = true) (hm : m.mentions = []) :
    classify m = ClassifyResult.rejected RejectionReason.noMentorTagged ∧
    on_message m tr sr =
      [Effect.channel_send (no_mentor_msg m), Effect.log (reject_no_mention_log m)] ∧
    (∃ rest, no_mentor_msg m = m.author_mention ++ rest) ∧
    (∀ n, Effect.create_thread n ∉ on_message m tr sr) ∧
    (∀ i r, Effect.store_write i r ∉ on_message m tr sr) := by
  have htrace : on_message m tr sr =
      [Effect.channel_send (no_mentor_msg m), Effect.log (reject_no_mention_log m)] := by
    simp [on_message, hd, hm]
  refine ⟨by simp [classify, hm], htrace, ⟨_, rfl⟩, ?_, ?_⟩
  · intro n; rw [htrace]; simp
  · intro i r; rw [htrace]; simp

/-- Witness for claim C4 at a concrete mention-free doubt message. -/
theorem no_mention_rejected_no_side_effects_witness :
    classify m_no_mention_long = ClassifyResult.rejected RejectionReason.noMentorTagged ∧
    on_message m_no_mention_long (ThreadResult.ok 7) StoreResult.ok =
      [Effect.channel_send (no_mentor_msg m_no_mention_long),
       Effect.log (reject_no_mention_log m_no_mention_long)] ∧
    (∃ rest, no_mentor_msg m_no_mention_long = m_no_mention_long.author_mention ++ rest) ∧
    (∀ n, Effect.create_thread n ∉ on_message m_no_mention_long (ThreadResult.ok 7) StoreResult.ok) ∧
    (∀ i r, Effect.store_write i r ∉ on_message m_no_mention_long (ThreadResult.ok 7) StoreResult.ok) :=
  no_mention_rejected_no_side_effects m_no_mention_long (ThreadResult.ok 7) StoreResult.ok
    (by decide) rfl

/-- Claim C5, counterexample: a doubt message whose stripped description
is shorter than the minimum but which has no mention is rejected as
`NoMentorTagged`, not as `DescriptionTooShort`. -/
theorem too_short_without_mention_counterexample :
    is_doubt m_no_mention_short = true ∧
    (doubt_description m_no_mention_short).length < min_doubt_description_length ∧
    classify m_no_mention_short ≠ ClassifyResult.rejected RejectionReason.descriptionTooShort ∧
    classify m_no_mention_short = ClassifyResult.rejected RejectionReason.noMentorTagged := by
  refine ⟨by decide, by decide, by decide, by decide⟩

/-- Claim C5, amended: a doubt message with at least one mention whose
stripped and trimmed description is shorter than the minimum is rejected
as `DescriptionTooShort`, and no thread or store record is created. -/
theorem too_short_with_mention_rejected (m : Message) (tr : ThreadResult)
    (sr : StoreResult) (hd : is_doubt m = true) (hm : m.mentions ≠ [])
    (hl : (doubt_description m).length < min_doubt_description_length) :
    classify m = ClassifyResult.rejected RejectionReason.descriptionTooShort ∧
    on_message m tr sr =
      [Effect.channel_send (too_short_msg m), Effect.log (reject_short_log m)] ∧
    (∀ n, Effect.create_thread n ∉ on_message m tr sr) ∧
    (∀ i r, Effect.store_write i r ∉ on_message m tr sr) := by
  have hme := isEmpty_false_of_ne_nil hm
  have htrace : on_message m tr sr =
      [Effect.channel_send (too_short_msg m), Effect.log (reject_short_log m)] := by
    simp [on_message, hd, hme, hl]
  refine ⟨by simp [classify, hme, hl], htrace, ?_, ?_⟩
  · intro n; rw [htrace]; simp
  · intro i r; rw [htrace]; simp

/-- Witness for the amended claim C5 at a concrete short submission. -/
theorem too_short_with_mention_rejected_witness :
    classify m_short_with_mention = ClassifyResult.rejected RejectionReason.descriptionTooShort ∧
    on_message m_short_with_mention (ThreadResult.ok 7) StoreResult.ok =
      [Effect.channel_send (too_short_msg m_short_with_mention),
       Effect.log (reject_short_log m_short_with_mention)] ∧
    (∀ n, Effect.create_thread n ∉ on_message m_short_with_mention (ThreadResult.ok 7) StoreResult.ok) ∧
    (∀ i r, Effect.store_write i r ∉ on_message m_short_with_mention (ThreadResult.ok 7) StoreResult.ok) :=
  too_short_with_mention_rejected m_short_with_mention (ThreadResult.ok 7) StoreResult.ok
    (by decide) (by decide) (by decide)

/-- Claim C6: when the thread is created but the store write fails, the
inconsistency is logged, no store write happens, and the confirmation —
which names the new thread — is still sent. -/
theorem store_failure_logged_still_confirms (m : Message) (tid : Nat)
    (hd : is_doubt m = true) (hm : m.mentions ≠ [])
    (hl : ¬ (doubt_description m).length < min_doubt_description_length) :
    Effect.log (store_fail_log tid) ∈ on_message m (ThreadResult.ok tid) StoreResult.error ∧
    Effect.channel_send (confirm_msg m tid) ∈ on_message m (ThreadResult.ok tid) StoreResult.error ∧
    (∀ i r, Effect.store_write i r ∉ on_message m (ThreadResult.ok tid) StoreResult.error) ∧
    (∃ pre post, confirm_msg m tid = pre ++ thread_mention tid ++ post) := by
  have hme := isEmpty_false_of_ne_nil hm
  have htrace : on_message m (ThreadResult.ok tid) StoreResult.error =
      [Effect.create_thread (thread_name m), Effect.log (created_thread_log m tid),
       Effect.log (store_fail_log tid),
       Effect.channel_send (confirm_msg m tid), Effect.log (replied_log m)] := by
    simp [on_message, hd, hme, hl]
  refine ⟨by rw [htrace]; simp, by rw [htrace]; simp, ?_, ?_⟩
  · intro i r; rw [htrace]; simp
  · exact ⟨m.author_mention ++ ", your doubt has been submitted! Please discuss further in the new thread: ".toList,
      ". Waiting for mentors to reply.".toList, by simp [confirm_msg]⟩

/-- Witness for claim C6 at a concrete submission with a failing store. -/
theorem store_failure_logged_still_confirms_witness :
    Effect.log (store_fail_log 7) ∈ on_message m_ok (ThreadResult.ok 7) StoreResult.error ∧
    Effect.channel_send (confirm_msg m_ok 7) ∈ on_message m_ok (ThreadResult.ok 7) StoreResult.error ∧
    (∀ i r, Effect.store_write i r ∉ on_message m_ok (ThreadResult.ok 7) StoreResult.error) ∧
    (∃ pre post, confirm_msg m_ok 7 = pre ++ thread_mention 7 ++ post) :=
  store_failure_logged_still_confirms m_ok 7 (by decide) (by decide) (by decide)

/-- Claim C7: the record persisted for an accepted submission stores
exactly the ids of the mention list of the triggering message, in
order. -/
theorem mentors_persisted_in_order (m : Message) (tid : Nat)
    (hd : is_doubt m = true) (hm : m.mentions ≠ [])
    (hl : ¬ (doubt_description m).length < min_doubt_description_length) :
    ∃ rec, Effect.store_write (toString tid) rec ∈ on_message m (ThreadResult.ok tid) StoreResult.ok ∧
      rec.mentioned_mentors_ids = m.mentions.map Mention.id := by
  have hme := isEmpty_false_of_ne_nil hm
  have htrace : on_message m (ThreadResult.ok tid) StoreResult.ok =
      [Effect.create_thread (thread_name m), Effect.log (created_thread_log m tid),
       Effect.store_write (toString tid) (mk_query_record m tid), Effect.log (stored_log tid),
       Effect.channel_send (confirm_msg m tid), Effect.log (replied_log m)] := by
    simp [on_message, hd, hme, hl]
  exact ⟨mk_query_record m tid, by rw [htrace]; simp, rfl⟩

/-- Witness for claim C7 at a concrete accepted submission. -/
theorem mentors_persisted_in_order_witness :
    ∃ rec, Effect.store_write (toString 7) rec ∈ on_message m_ok (ThreadResult.ok 7) StoreResult.ok ∧
      rec.mentioned_mentors_ids = m_ok.mentions.map Mention.id :=
  mentors_persisted_in_order m_ok 7 (by decide) (by decide) (by decide)

/-- Claim C8: with no open query in the store, the list command sends
exactly one private no-open-doubts notice, and the store is returned
unchanged with no store write in the trace. -/
theorem list_open_empty_one_private_notice (store : Store) (dr : DeleteResult)
    (h : open_queries store = []) :
    (list_open_doubts store dr true).1 = store ∧
    (list_open_doubts store dr true).2.filter is_dm_send = [Effect.dm_send no_open_msg] ∧
    (∀ i r, Effect.store_write i r ∉ (list_open_doubts store dr true).2) := by
  refine ⟨rfl, ?_, ?_⟩
  · cases dr <;> simp [list_open_doubts, delete_phase, report_effects, h, is_dm_send]
  · intro i r
    cases dr <;> simp [list_open_doubts, delete_phase, report_effects, h]

/-- Witness for claim C8 on the empty store. -/
theorem list_open_empty_one_private_notice_witness :
    (list_open_doubts store_empty DeleteResult.forbidden true).1 = store_empty ∧
    (list_open_doubts store_empty DeleteResult.forbidden true).2.filter is_dm_send =
      [Effect.dm_send no_open_msg] ∧
    (∀ i r, Effect.store_write i r ∉ (list_open_doubts store_empty DeleteResult.forbidden true).2) :=
  list_open_empty_one_private_notice store_empty DeleteResult.forbidden rfl

/-- Claim C9: the classifier checks the mention list before the
description length, so an empty mention list always yields
`NoMentorTagged`, and `DescriptionTooShort` can only arise for a message
with at least one mention. -/
theorem mention_check_before_length_check (m : Message) :
    (m.mentions = [] → classify m = ClassifyResult.rejected RejectionReason.noMentorTagged) ∧
    (classify m = ClassifyResult.rejected RejectionReason.descriptionTooShort → m.mentions ≠ []) := by
  constructor
  · intro h
    simp [classify, h]
  · intro h hnil
    simp [classify, hnil] at h

/-- Witness for claim C9: a mention-free message with a long description
is still rejected for the missing mention, and a concrete
`DescriptionTooShort` rejection indeed has a mention. -/
theorem mention_check_before_length_check_witness :
    classify m_no_mention_long = ClassifyResult.rejected RejectionReason.noMentorTagged ∧
    m_short_with_mention.mentions ≠ [] :=
  ⟨(mention_check_before_length_check m_no_mention_long).1 rfl,
   (mention_check_before_length_check m_short_with_mention).2 (by decide)⟩

/-- Claim C10: every invocation of the list command attempts to delete
the invoking message first — also when the invoker lacks the permission
— the report of a permitted invocation is produced whatever the delete
outcome, and a failed delete puts its specific failure log line directly
after the delete attempt, before any report. -/
theorem list_always_tries_delete_first (has_perm : Bool) (dr : DeleteResult)
    (dm_ok : Bool) (store : Store) :
    (list_command has_perm dr dm_ok store).2.head? = some Effect.try_delete_message ∧
    (has_perm = true → report_effects store dm_ok <:+ (list_command has_perm dr dm_ok store).2) ∧
    (has_perm = true → dr = DeleteResult.forbidden →
      (list_command has_perm dr dm_ok store).2[1]? = some (Effect.log delete_forbidden_log)) ∧
    (has_perm = true → dr = DeleteResult.http_error →
      (list_command has_perm dr dm_ok store).2[1]? = some (Effect.log delete_fail_log)) ∧
    (has_perm = false → dr ≠ DeleteResult.ok →
      (list_command has_perm dr dm_ok store).2[1]? = some (Effect.log error_delete_warn_log)) := by
  refine ⟨?_, ?_, ?_, ?_, ?_⟩
  · cases has_perm <;> cases dr <;> rfl
  · intro hp
    subst hp
    exact List.suffix_append (delete_phase dr) (report_effects store dm_ok)
  · intro hp hdr
    subst hp
    subst hdr
    simp [list_command, list_open_doubts, delete_phase]
  · intro hp hdr
    subst hp
    subst hdr
    simp [list_command, list_open_doubts, delete_phase]
  · intro hp hne
    subst hp
    cases dr with
    | ok => exact absurd rfl hne
    | forbidden => rfl
    | http_error => rfl

/-- Witness for claim C10: a permitted invocation whose delete is
forbidden still yields the full report, and the forbidden-delete log
line sits right after the delete attempt. -/
theorem list_always_tries_delete_first_witness :
    (list_command true DeleteResult.forbidden true store_one_open).2.head? =
      some Effect.try_delete_message ∧
    report_effects store_one_open true <:+ (list_command true DeleteResult.forbidden true store_one_open).2 ∧
    (list_command true DeleteResult.forbidden true store_one_open).2[1]? =
      some (Effect.log delete_forbidden_log) :=
  ⟨(list_always_tries_delete_first true DeleteResult.forbidden true store_one_open).1,
   (list_always_tries_delete_first true DeleteResult.forbidden true store_one_open).2.1 rfl,
   (list_always_tries_delete_first true DeleteResult.forbidden true store_one_open).2.2.1 rfl rfl⟩

end Lumen
